import Mathlib

/-!
# Verification of the neupy layer-graph compiler and momentum training core

Shallow embedding of the neupy momentum-based training core (optimizer,
graph builder, training loop) and of the terminal logger from
`src/neupy/core/logs.py`, together with proofs of the specified
properties.  Numeric tensors are modelled per-component over `ℚ`.
-/

namespace Neupy

/-! ## Momentum optimizer -/

/-- A single learnable parameter component together with its optimizer
velocity component (`OptimizerState` keeps one velocity per parameter,
same shape). -/
structure ParamState where
  p : ℚ
  v : ℚ
deriving DecidableEq, Repr

/-- Modelled from the spec: the plain-momentum update rule of the
Optimizer (missing from `src/`), per parameter `p` with gradient `g`,
velocity `v`, learning rate `η`, momentum coefficient `μ`:
`v ← μ*v − η*g`; `p ← p + v`. -/
def momentumUpdate (eta mu g : ℚ) (s : ParamState) : ParamState :=
  let vNew := mu * s.v - eta * g
  { p := s.p + vNew, v := vNew }

/-- Modelled from the spec: one optimizer step over the stable,
Graph-Builder-ordered list of parameters; each entry pairs a parameter
state with its gradient and is updated in list order. -/
def optimizerStep (eta mu : ℚ) (params : List (ParamState × ℚ)) :
    List ParamState :=
  params.map (fun pg => momentumUpdate eta mu pg.2 pg.1)

/-- Modelled from the spec: a run of `n` plain-momentum steps on a single
parameter, the gradient at step `t` supplied by the sequence `gs`. -/
def momentumRun (eta mu : ℚ) (gs : Nat → ℚ) : Nat → ParamState → ParamState
  | 0, s => s
  | n + 1, s => momentumUpdate eta mu (gs n) (momentumRun eta mu gs n s)

/-- Modelled from the spec: vanilla gradient descent `p ← p − η*g`,
the reference point for the `μ = 0` reduction property. -/
def vanillaRun (eta : ℚ) (gs : Nat → ℚ) : Nat → ℚ → ℚ
  | 0, p => p
  | n + 1, p => vanillaRun eta gs n p - eta * gs n

/-! ## Configuration surface

Modelled from the spec: the construction-time options of the
Optimizer/Training Loop, `{error: loss-function tag, step: float>0,
momentum: float in [0,1), nesterov: bool, shuffle_data: bool,
verbose: bool, epochs: int>0}`, validated by the Typed Configuration
facility (missing from `src/`); invalid values fail fast at construction
with a `ConfigurationError` naming the option and the accepted domain. -/

/-- A raw, not yet validated option value as supplied by the caller. -/
inductive RawValue where
  | b (x : Bool)
  | i (x : Int)
  | q (x : ℚ)
  | s (x : String)
deriving DecidableEq, Repr

/-- The raw option set supplied to the Optimizer/Training Loop
constructor. -/
structure RawConfig where
  error : RawValue
  step : RawValue
  momentum : RawValue
  nesterov : RawValue
  shuffle_data : RawValue
  verbose : RawValue
  epochs : RawValue
deriving DecidableEq, Repr

/-- A configuration failure naming the offending option and its accepted
domain. -/
structure ConfigurationError where
  option : String
  domain : String
deriving DecidableEq, Repr

/-- The validated, immutable configuration snapshot consumed by a
training run. -/
structure TrainingConfig where
  error : String
  step : ℚ
  momentum : ℚ
  nesterov : Bool
  shuffle_data : Bool
  verbose : Bool
  epochs : Int
deriving DecidableEq, Repr

/-- Validation of the `error` option: a known loss-function tag drawn
from `tags`. -/
def checkErrorTag (tags : List String) : RawValue →
    Except ConfigurationError String
  | .s x => if x ∈ tags then .ok x
            else .error ⟨"error", "a known loss-function tag"⟩
  | _ => .error ⟨"error", "a known loss-function tag"⟩

/-- Validation of the `step` option: a float strictly greater than 0. -/
def checkStep : RawValue → Except ConfigurationError ℚ
  | .q x => if 0 < x then .ok x else .error ⟨"step", "float > 0"⟩
  | _ => .error ⟨"step", "float > 0"⟩

/-- Validation of the `momentum` option: a float in `[0, 1)`. -/
def checkMomentum : RawValue → Except ConfigurationError ℚ
  | .q x => if 0 ≤ x ∧ x < 1 then .ok x
            else .error ⟨"momentum", "float in [0, 1)"⟩
  | _ => .error ⟨"momentum", "float in [0, 1)"⟩

/-- Validation of a boolean option named `name`. -/
def checkBool (name : String) : RawValue → Except ConfigurationError Bool
  | .b x => .ok x
  | _ => .error ⟨name, "bool"⟩

/-- Validation of the `epochs` option: an int strictly greater than 0. -/
def checkEpochs : RawValue → Except ConfigurationError Int
  | .i x => if 0 < x then .ok x else .error ⟨"epochs", "int > 0"⟩
  | _ => .error ⟨"epochs", "int > 0"⟩

/-- Modelled from the spec: construction of the Optimizer/Training Loop
configuration (the Typed Configuration facility is missing from `src/`).
Each option is validated in declaration order; the first invalid value
aborts construction with its `ConfigurationError`. -/
def mkConfig (tags : List String) (r : RawConfig) :
    Except ConfigurationError TrainingConfig :=
  match checkErrorTag tags r.error with
  | .error e => .error e
  | .ok errTag =>
    match checkStep r.step with
    | .error e => .error e
    | .ok stepV =>
      match checkMomentum r.momentum with
      | .error e => .error e
      | .ok momentumV =>
        match checkBool "nesterov" r.nesterov with
        | .error e => .error e
        | .ok nesterovV =>
          match checkBool "shuffle_data" r.shuffle_data with
          | .error e => .error e
          | .ok shuffleV =>
            match checkBool "verbose" r.verbose with
            | .error e => .error e
            | .ok verboseV =>
              match checkEpochs r.epochs with
              | .error e => .error e
              | .ok epochsV =>
                .ok ⟨errTag, stepV, momentumV, nesterovV, shuffleV,
                  verboseV, epochsV⟩

/-- Whether a configuration construction attempt succeeded. -/
def constructionSucceeded : Except ConfigurationError TrainingConfig → Bool
  | .ok _ => true
  | .error _ => false

/-- The accepted domain of every raw option value, stated from the
configuration surface of the spec (claim side). -/
def rawInDomain (tags : List String) (r : RawConfig) : Prop :=
  (∃ x, r.error = .s x ∧ x ∈ tags) ∧
  (∃ x, r.step = .q x ∧ 0 < x) ∧
  (∃ x, r.momentum = .q x ∧ 0 ≤ x ∧ x < 1) ∧
  (∃ x, r.nesterov = .b x) ∧
  (∃ x, r.shuffle_data = .b x) ∧
  (∃ x, r.verbose = .b x) ∧
  (∃ x, r.epochs = .i x ∧ 0 < x)

/-- Whether the raw value of the option named `name` lies outside its
accepted domain (claim side). -/
def optionViolated (tags : List String) (r : RawConfig) : String → Prop
  | "error" => ¬ ∃ x, r.error = .s x ∧ x ∈ tags
  | "step" => ¬ ∃ x, r.step = .q x ∧ 0 < x
  | "momentum" => ¬ ∃ x, r.momentum = .q x ∧ 0 ≤ x ∧ x < 1
  | "nesterov" => ¬ ∃ x, r.nesterov = .b x
  | "shuffle_data" => ¬ ∃ x, r.shuffle_data = .b x
  | "verbose" => ¬ ∃ x, r.verbose = .b x
  | "epochs" => ¬ ∃ x, r.epochs = .i x ∧ 0 < x
  | _ => False

/-- The accepted-domain text attached to each option name. -/
def domainText : String → String
  | "error" => "a known loss-function tag"
  | "step" => "float > 0"
  | "momentum" => "float in [0, 1)"
  | "nesterov" => "bool"
  | "shuffle_data" => "bool"
  | "verbose" => "bool"
  | "epochs" => "int > 0"
  | _ => ""

/-! ## Training loop

Modelled from the spec: the per-epoch driver (missing from `src/`).
Each epoch applies one optimizer step over all parameters, evaluates the
loss, appends a Metrics record, and then checks the early-stopping
signal at the epoch boundary.  The gradient oracle `grads`, the loss
oracle `loss`, the numeric-instability detector `unstable` and the
user-supplied stop hook `stopHook` stand for the external collaborators
(Forward/Backward Compiler, NaN/Inf detection, per-epoch callback). -/

/-- The taxonomy of run-time errors a training run can surface. -/
inductive NeupyError where
  | configuration (opt dom : String)
  | dataShape (expected actual : Nat)
  | numericInstability
deriving DecidableEq, Repr

/-- Terminal states of the Training Loop state machine. -/
inductive TerminalState where
  | completed
  | stoppedEarly
  | failed (e : NeupyError)
deriving DecidableEq, Repr

/-- The outcome of a training run: the append-only Metrics log, the final
parameter states, and the terminal state. -/
structure TrainResult where
  metrics : List ℚ
  params : List ParamState
  state : TerminalState
deriving DecidableEq, Repr

/-- One optimizer step over the stable parameter list, gradients given as
a separate list aligned with the parameters. -/
def optimizerStepG (eta mu : ℚ) (gs : List ℚ) (ps : List ParamState) :
    List ParamState :=
  optimizerStep eta mu (ps.zip gs)

/-- Modelled from the spec: the epoch loop, starting at epoch number
`epoch` with `rem` epochs remaining, accumulated Metrics `ms`.  Per
epoch: optimizer update over all parameters, loss evaluation, numeric
check (instability aborts the run into `failed`, surfacing the Metrics
of the last valid epoch), Metrics append, then the early-stop check at
the epoch boundary. -/
def trainLoop (eta mu : ℚ) (grads : Nat → List ℚ)
    (loss : List ParamState → ℚ) (unstable : ℚ → Bool)
    (stopHook : Nat → Bool) :
    Nat → Nat → List ParamState → List ℚ → TrainResult
  | _, 0, ps, ms => ⟨ms, ps, .completed⟩
  | epoch, rem + 1, ps, ms =>
    let ps2 := optimizerStepG eta mu (grads epoch) ps
    let l := loss ps2
    if unstable l then ⟨ms, ps2, .failed .numericInstability⟩
    else if stopHook epoch then ⟨ms ++ [l], ps2, .stoppedEarly⟩
    else trainLoop eta mu grads loss unstable stopHook
      (epoch + 1) rem ps2 (ms ++ [l])

/-- Modelled from the spec: a full `epochs`-epoch training run, epochs
numbered from 1, Metrics log starting empty. -/
def train (eta mu : ℚ) (grads : Nat → List ℚ) (loss : List ParamState → ℚ)
    (unstable : ℚ → Bool) (stopHook : Nat → Bool) (epochs : Nat)
    (ps : List ParamState) : TrainResult :=
  trainLoop eta mu grads loss unstable stopHook 1 epochs ps []

/-- The parameter states after applying the optimizer updates of epochs
`e, e+1, …, e+c-1`. -/
def applyEpochs (eta mu : ℚ) (grads : Nat → List ℚ) :
    Nat → Nat → List ParamState → List ParamState
  | _, 0, ps => ps
  | e, c + 1, ps =>
    applyEpochs eta mu grads (e + 1) c (optimizerStepG eta mu (grads e) ps)

/-- The per-epoch loss records produced by epochs `e, …, e+c-1`. -/
def lossTrace (eta mu : ℚ) (grads : Nat → List ℚ)
    (loss : List ParamState → ℚ) :
    Nat → Nat → List ParamState → List ℚ
  | _, 0, _ => []
  | e, c + 1, ps =>
    let ps2 := optimizerStepG eta mu (grads e) ps
    loss ps2 :: lossTrace eta mu grads loss (e + 1) c ps2

/-! ## Graph builder

Modelled from the spec: composition of an ordered list of LayerSpecs
into a shape-checked Graph (missing from `src/`).  Each non-Input
layer's input width is inferred as the previous layer's output width; a
declared input width that differs from it is a mismatch.  All adjacent
pairs are validated before any Parameter is allocated. -/

/-- A layer specification: identity, optionally declared input width,
declared output width, and whether the layer owns learnable weights. -/
structure LayerSpec where
  name : String
  inWidth : Option Nat
  outWidth : Nat
  hasWeights : Bool
deriving DecidableEq, Repr

/-- A graph-construction failure identifying the expected input width
(the previous layer's output width) and the actual declared width. -/
structure GraphConstructionError where
  expected : Nat
  actual : Nat
deriving DecidableEq, Repr

/-- The compiled graph: the validated layer chain plus the ordered list
of allocated Parameter shapes (fan-in × fan-out), in declaration order. -/
structure Graph where
  layers : List LayerSpec
  params : List (Nat × Nat)
deriving DecidableEq, Repr

/-- Walks the chain with the previous layer's output width `prev` and
returns the first adjacent-width mismatch, if any. -/
def firstMismatchFrom (prev : Nat) : List LayerSpec →
    Option GraphConstructionError
  | [] => none
  | l :: ls =>
    match l.inWidth with
    | some w =>
      if w ≠ prev then some ⟨prev, w⟩
      else firstMismatchFrom l.outWidth ls
    | none => firstMismatchFrom l.outWidth ls

/-- Allocates Parameter shapes along the chain, fan-in `prev`, in
declaration order. -/
def allocParamsFrom (prev : Nat) : List LayerSpec → List (Nat × Nat)
  | [] => []
  | l :: ls =>
    (if l.hasWeights then [(prev, l.outWidth)] else []) ++
      allocParamsFrom l.outWidth ls

/-- Modelled from the spec: graph construction.  The whole chain is
shape-validated first; a mismatch aborts with a
`GraphConstructionError` before any Parameter allocation, otherwise the
Parameters are allocated in stable declaration order. -/
def buildGraph : List LayerSpec → Except GraphConstructionError Graph
  | [] => .ok ⟨[], []⟩
  | first :: rest =>
    match firstMismatchFrom first.outWidth rest with
    | some e => .error e
    | none => .ok ⟨first :: rest, allocParamsFrom first.outWidth rest⟩

/-- The Parameters allocated by a construction attempt (none when
construction failed). -/
def allocatedParams : Except GraphConstructionError Graph →
    List (Nat × Nat)
  | .error _ => []
  | .ok g => g.params

/-! ## Compiled forward pass (`predict`)

Modelled from the spec: the `predict` callable produced by the
Forward/Backward Compiler (missing from `src/`), a pure function of the
current Parameter values.  The model threads the whole session state
(Parameters and optimizer velocities) through the call so that absence
of mutation is a statement, not a typing triviality. -/

/-- Activation tags of the modelled layers. -/
inductive Activation where
  | linear
  | relu
deriving DecidableEq, Repr

/-- Application of an activation to one output component. -/
def applyAct : Activation → ℚ → ℚ
  | .linear, x => x
  | .relu, x => max x 0

/-- Dot product of two rational vectors. -/
def dot : List ℚ → List ℚ → ℚ
  | [], _ => 0
  | _, [] => 0
  | x :: xs, y :: ys => x * y + dot xs ys

/-- A dense layer's Parameters: weight rows, bias vector, activation. -/
structure DenseLayer where
  weights : List (List ℚ)
  bias : List ℚ
  act : Activation
deriving DecidableEq, Repr

/-- Forward computation of one dense layer on an input vector. -/
def denseForward (l : DenseLayer) (x : List ℚ) : List ℚ :=
  (l.weights.zip l.bias).map (fun rb => applyAct l.act (dot rb.1 x + rb.2))

/-- Forward pass through the layer chain. -/
def forwardLayers : List DenseLayer → List ℚ → List ℚ
  | [], x => x
  | l :: ls, x => forwardLayers ls (denseForward l x)

/-- The session state visible to `predict`: the Parameters of every
layer and the optimizer velocity state. -/
structure SessionState where
  layers : List DenseLayer
  velocities : List ℚ
deriving DecidableEq, Repr

/-- Modelled from the spec: `predict(x) -> y_pred`, evaluating the
compiled forward pass on the current Parameters and returning the
session state it leaves behind. -/
def predict (s : SessionState) (x : List ℚ) : List ℚ × SessionState :=
  (forwardLayers s.layers x, s)

/-- Shape-consistency of a compiled network with input width `d`: every
layer has one bias per weight row, every weight row matches the width of
the previous layer, widths chain through the network. -/
def wellFormedFrom (d : Nat) : List DenseLayer → Bool
  | [] => true
  | l :: ls =>
    (l.weights.length == l.bias.length) &&
    l.weights.all (fun row => row.length == d) &&
    wellFormedFrom l.weights.length ls

/-! ## TerminalLogger (`src/neupy/core/logs.py`)

The logger writes to `sys.stdout`; the model keeps the written text in
the `out` field.  The colorizer functions (`terminal.gray` …), the text
styles (`terminal.bold`, `terminal.underline`) and the `tableprint`
renderer live outside `src/` and are taken as function parameters. -/

/-- State of a `TerminalLogger` instance: the `enable` flag, the message
`template` and the text written so far to stdout. -/
structure LoggerState where
  enable : Bool
  template : String
  out : String
deriving DecidableEq, Repr

namespace TerminalLogger

/-- Model of `TerminalLogger.__init__`: sets `enable`, the default template
`"[{tag}] {text}"`, and `stdout` (no output yet). -/
def init (enable : Bool) : LoggerState :=
  { enable := enable, template := "[{tag}] {text}", out := "" }

/-- Model of `TerminalLogger.write`: writes `text` plus a final newline to stdout
when logging is enabled, otherwise does nothing. -/
def write (st : LoggerState) (text : String) : LoggerState :=
  if st.enable then { st with out := st.out ++ text ++ "\n" } else st

/-- Model of `TerminalLogger.newline`: writes an empty line (`write` of a
carriage return). -/
def newline (st : LoggerState) : LoggerState :=
  write st "\r"

/-- The keys of the `TerminalLogger.colors` dictionary, in declaration
order. -/
def colorNames : List String := ["gray", "green", "red", "white"]

/-- Field substitution of Python `str.format` restricted to the two
fields used by `message`: one left-to-right pass over the template,
replacing each `{tag}` and `{text}` field; substituted values are not
rescanned. -/
def substFields (tag text : String) : List Char → List Char
  | [] => []
  | '{' :: 't' :: 'a' :: 'g' :: '}' :: rest =>
    tag.data ++ substFields tag text rest
  | '{' :: 't' :: 'e' :: 'x' :: 't' :: '}' :: rest =>
    text.data ++ substFields tag text rest
  | c :: cs => c :: substFields tag text cs

/-- Rendering of a template by `str.format` with the `tag` and `text`
fields substituted (`self.template.format(tag=…, text=…)`). -/
def formatTemplate (tpl tag text : String) : String :=
  String.mk (substFields tag text tpl.data)

/-- The `ValueError` text raised by `message` for an unknown color. -/
def invalidColorMsg (color : String) : String :=
  "Invalid color `" ++ color ++ "`. Available colors: " ++
    String.intercalate ", " colorNames

/-- Model of `TerminalLogger.message`: raises `ValueError` (second
component) when `color` is not a key of `colors`, writing nothing;
otherwise formats the state's template with the colorized upper-cased
tag and writes it.  `czr` is the external colorizer family
(`terminal.gray` …) indexed by color name. -/
def message (czr : String → String → String) (st : LoggerState)
    (tag text color : String) : LoggerState × Option String :=
  if color ∈ colorNames then
    (write st (formatTemplate st.template (czr color tag.toUpper) text),
      none)
  else
    (st, some (invalidColorMsg color))

/-- Model of `TerminalLogger.title`: writes the text styled by the external
`bold` and `underline`, framed by empty lines. -/
def title (bold underline : String → String) (st : LoggerState)
    (text : String) : LoggerState :=
  write st ("\n" ++ underline (bold text) ++ "\n")

/-- Model of `TerminalLogger.error`: a `message` with tag `ERROR`, color red. -/
def error (czr : String → String → String) (st : LoggerState)
    (text : String) : LoggerState × Option String :=
  message czr st "ERROR" text "red"

/-- Model of `TerminalLogger.warning`: a `message` with tag `WARN`, color red. -/
def warning (czr : String → String → String) (st : LoggerState)
    (text : String) : LoggerState × Option String :=
  message czr st "WARN" text "red"

/-- Column widths computed by `TerminalLogger.table`: start from the
header lengths, then take the maximum with each cell length. -/
def updateWidths : List Nat → List String → List Nat
  | [], _ => []
  | ws, [] => ws
  | w :: ws, c :: row => max c.length w :: updateWidths ws row

/-- Model of `TerminalLogger.table`: returns immediately when logging is
disabled; otherwise computes column widths and writes the rendering
produced by the external `tableprint.table` (parameter `render`). -/
def table (render : List (List String) → List String → List Nat → String)
    (st : LoggerState) (data : List (List String))
    (headers : List String) : LoggerState :=
  if st.enable then
    { st with
      out := st.out ++
        render data headers
          (data.foldl updateWidths (headers.map String.length)) }
  else st

end TerminalLogger

/-! ## Verbose (`src/neupy/core/logs.py`)

`Verbose` couples the `verbose` configuration property with the
`enable` flag of its `TerminalLogger`.  The `Configurable`/`BaseProperty`
plumbing lives outside `src/`; applying a constructor option is
modelled as one descriptor assignment (`VerboseProperty.__set__`). -/

/-- State of a `Verbose` instance: the stored `verbose` attribute value
and the owned `TerminalLogger`. -/
structure VerboseState where
  verbose : Bool
  logs : LoggerState
deriving DecidableEq, Repr

/-- Model of `VerboseProperty.__set__`: writes the new value to
`instance.logs.enable`, then stores it as the attribute value. -/
def setVerbose (s : VerboseState) (v : Bool) : VerboseState :=
  { s with logs := { s.logs with enable := v }, verbose := v }

/-- Model of `Verbose.__init__`: creates the `TerminalLogger` (default
`enable=True`), overwrites `logs.enable` with the current `verbose`
value (descriptor default `False`), then applies the `verbose`
constructor option, when given, through `VerboseProperty.__set__`. -/
def mkVerbose (verboseOpt : Option Bool) : VerboseState :=
  let s0 : VerboseState := { verbose := false, logs := TerminalLogger.init true }
  let s1 : VerboseState := { s0 with logs := { s0.logs with enable := s0.verbose } }
  match verboseOpt with
  | none => s1
  | some v => setVerbose s1 v

/-! ## Theorems -/

/-- Claim C1: one plain-momentum optimizer step updates every parameter
by `v' = μ*v − η*g` then `p' = p + v'`, exactly once per parameter and
in the stable Graph-Builder order (the output list has the same length
and the entry at each position `i` is the update of the input entry at
`i`). -/
theorem optimizerStep_updates_each_param_once_in_order
    (eta mu : ℚ) (params : List (ParamState × ℚ))
    (hmu0 : 0 ≤ mu) (hmu1 : mu < 1) :
    (optimizerStep eta mu params).length = params.length ∧
    ∀ i : Fin params.length,
      (optimizerStep eta mu params).get
          ⟨i.1, by simpa [optimizerStep] using i.2⟩ =
        { p := (params.get i).1.p +
            (mu * (params.get i).1.v - eta * (params.get i).2),
          v := mu * (params.get i).1.v - eta * (params.get i).2 } := by
  constructor
  · simp [optimizerStep]
  · intro i
    simp [optimizerStep, momentumUpdate]

theorem optimizerStep_updates_each_param_once_in_order_witness :
    (0:ℚ) ≤ 1/2 ∧ (1:ℚ)/2 < 1 ∧
    ((optimizerStep 2 (1/2) [(⟨10, 4⟩, 3)]).length = 1 ∧
      ∀ i : Fin 1,
        (optimizerStep 2 (1/2) [(⟨10, 4⟩, 3)]).get
            ⟨i.1, by simpa [optimizerStep] using i.2⟩ =
          { p := ([((⟨10, 4⟩ : ParamState), (3:ℚ))].get i).1.p +
              ((1/2) * ([((⟨10, 4⟩ : ParamState), (3:ℚ))].get i).1.v -
                2 * ([((⟨10, 4⟩ : ParamState), (3:ℚ))].get i).2),
            v := (1/2) * ([((⟨10, 4⟩ : ParamState), (3:ℚ))].get i).1.v -
              2 * ([((⟨10, 4⟩ : ParamState), (3:ℚ))].get i).2 }) :=
  ⟨by norm_num, by norm_num,
    optimizerStep_updates_each_param_once_in_order 2 (1/2)
      [(⟨10, 4⟩, 3)] (by norm_num) (by norm_num)⟩

/-- Claim C5: with `μ = 0`, plain momentum starting from zero-initialized
velocity is extensionally equal to vanilla gradient descent: after any
number of steps the parameter equals the vanilla-GD iterate, and every
step satisfies `p_next = p − η*g`. -/
theorem momentum_mu_zero_is_vanilla_gd
    (eta : ℚ) (gs : Nat → ℚ) (p0 : ℚ) (n : Nat) :
    (momentumRun eta 0 gs n ⟨p0, 0⟩).p = vanillaRun eta gs n p0 ∧
    (momentumRun eta 0 gs (n + 1) ⟨p0, 0⟩).p =
      (momentumRun eta 0 gs n ⟨p0, 0⟩).p - eta * gs n := by
  have key : ∀ m : Nat,
      (momentumRun eta 0 gs m ⟨p0, 0⟩).p = vanillaRun eta gs m p0 := by
    intro m
    induction m with
    | zero => rfl
    | succ k ih =>
      simp only [momentumRun, momentumUpdate, vanillaRun, ih]
      ring_nf
  refine ⟨key n, ?_⟩
  simp only [momentumRun, momentumUpdate]
  ring_nf

/-- Velocity after `n` plain-momentum steps with a constant gradient,
starting from zero velocity (helper for the geometric-sum property). -/
theorem momentumRun_const_velocity (eta mu g : ℚ) (p0 : ℚ) (n : Nat) :
    (momentumRun eta mu (fun _ => g) n ⟨p0, 0⟩).v =
      -eta * g * (Finset.range n).sum (fun i => mu ^ i) := by
  induction n with
  | zero => simp [momentumRun]
  | succ k ih =>
    simp only [momentumRun, momentumUpdate, ih]
    rw [geom_sum_succ]
    ring

/-- Claim C6: for `n ≥ 1`, after `n` plain-momentum steps with constant
gradient `g` from zero velocity, the velocity equals
`−η*g*(1 + μ + μ² + … + μ^(n-1))`, the finite geometric sum. -/
theorem velocity_geometric_sum
    (eta mu g p0 : ℚ) (n : Nat) (hn : 1 ≤ n) :
    (momentumRun eta mu (fun _ => g) n ⟨p0, 0⟩).v =
      -eta * g * (Finset.range n).sum (fun i => mu ^ i) :=
  momentumRun_const_velocity eta mu g p0 n

theorem velocity_geometric_sum_witness :
    1 ≤ 3 ∧
    (momentumRun 2 (1/2) (fun _ => (3:ℚ)) 3 ⟨5, 0⟩).v =
      -2 * 3 * (Finset.range 3).sum (fun i => (1/2:ℚ) ^ i) :=
  ⟨by norm_num, velocity_geometric_sum 2 (1/2) 3 5 3 (by norm_num)⟩

theorem checkErrorTag_eq_ok_iff (tags : List String) (rv : RawValue)
    (v : String) :
    checkErrorTag tags rv = .ok v ↔ rv = .s v ∧ v ∈ tags := by
  cases rv <;>
    simp [checkErrorTag, eq_comm] <;>
    (try split_ifs) <;>
    (try simp_all [eq_comm]) <;>
    (try tauto)

theorem checkErrorTag_eq_error_iff (tags : List String) (rv : RawValue)
    (er : ConfigurationError) :
    checkErrorTag tags rv = .error er ↔
      er = ⟨"error", "a known loss-function tag"⟩ ∧
        ¬ ∃ x, rv = .s x ∧ x ∈ tags := by
  cases rv <;> simp [checkErrorTag] <;>
    (try split_ifs) <;>
    (try simp_all [eq_comm]) <;>
    (try tauto)

theorem checkStep_eq_ok_iff (rv : RawValue) (v : ℚ) :
    checkStep rv = .ok v ↔ rv = .q v ∧ 0 < v := by
  cases rv <;> simp [checkStep, eq_comm] <;>
    (try split_ifs) <;>
    (try simp_all [eq_comm]) <;>
    (try tauto)

theorem checkStep_eq_error_iff (rv : RawValue) (er : ConfigurationError) :
    checkStep rv = .error er ↔
      er = ⟨"step", "float > 0"⟩ ∧ ¬ ∃ x, rv = .q x ∧ 0 < x := by
  cases rv <;> simp [checkStep, eq_comm] <;>
    (try split_ifs) <;>
    (try simp_all [eq_comm]) <;>
    (try tauto)

theorem checkMomentum_eq_ok_iff (rv : RawValue) (v : ℚ) :
    checkMomentum rv = .ok v ↔ rv = .q v ∧ 0 ≤ v ∧ v < 1 := by
  cases rv <;> simp [checkMomentum, eq_comm] <;>
    (try split_ifs) <;>
    (try simp_all [eq_comm]) <;>
    (try tauto)

theorem checkMomentum_eq_error_iff (rv : RawValue)
    (er : ConfigurationError) :
    checkMomentum rv = .error er ↔
      er = ⟨"momentum", "float in [0, 1)"⟩ ∧
        ¬ ∃ x, rv = .q x ∧ 0 ≤ x ∧ x < 1 := by
  cases rv <;> simp [checkMomentum, eq_comm] <;>
    (try split_ifs) <;>
    (try simp_all [eq_comm]) <;>
    (try tauto)

theorem checkBool_eq_ok_iff (name : String) (rv : RawValue) (v : Bool) :
    checkBool name rv = .ok v ↔ rv = .b v := by
  cases rv <;> simp [checkBool]

theorem checkBool_eq_error_iff (name : String) (rv : RawValue)
    (er : ConfigurationError) :
    checkBool name rv = .error er ↔
      er = ⟨name, "bool"⟩ ∧ ¬ ∃ x, rv = .b x := by
  cases rv <;> simp [checkBool, eq_comm]

theorem checkEpochs_eq_ok_iff (rv : RawValue) (v : Int) :
    checkEpochs rv = .ok v ↔ rv = .i v ∧ 0 < v := by
  cases rv <;> simp [checkEpochs, eq_comm] <;>
    (try split_ifs) <;>
    (try simp_all [eq_comm]) <;>
    (try tauto)

theorem checkEpochs_eq_error_iff (rv : RawValue) (er : ConfigurationError) :
    checkEpochs rv = .error er ↔
      er = ⟨"epochs", "int > 0"⟩ ∧ ¬ ∃ x, rv = .i x ∧ 0 < x := by
  cases rv <;> simp [checkEpochs, eq_comm] <;>
    (try split_ifs) <;>
    (try simp_all [eq_comm]) <;>
    (try tauto)

/-- The training loop never surfaces a `ConfigurationError`: its failed
terminal state can only carry numeric instability. -/
theorem trainLoop_never_configuration_failed
    (eta mu : ℚ) (grads : Nat → List ℚ) (loss : List ParamState → ℚ)
    (unstable : ℚ → Bool) (stopHook : Nat → Bool) :
    ∀ (rem epoch : Nat) (ps : List ParamState) (ms : List ℚ)
      (o d : String),
      (trainLoop eta mu grads loss unstable stopHook epoch rem ps
        ms).state ≠ .failed (.configuration o d) := by
  intro rem
  induction rem with
  | zero =>
    intro epoch ps ms o d
    simp [trainLoop]
  | succ k ih =>
    intro epoch ps ms o d
    simp only [trainLoop]
    split
    · simp
    · split
      · simp
      · exact ih (epoch + 1) _ _ o d

/-- Claim C2: configuration construction succeeds exactly when every
option value lies in its accepted domain; an out-of-domain value fails
fast with a `ConfigurationError` naming the violated option and its
accepted domain; and the training loop never surfaces a
`ConfigurationError` after construction. -/
theorem configuration_errors_fail_fast (tags : List String) (r : RawConfig) :
    (constructionSucceeded (mkConfig tags r) = true ↔ rawInDomain tags r) ∧
    (∀ e, mkConfig tags r = .error e →
      optionViolated tags r e.option ∧ e.domain = domainText e.option) ∧
    (∀ (eta mu : ℚ) (grads : Nat → List ℚ) (loss : List ParamState → ℚ)
        (unstable : ℚ → Bool) (stopHook : Nat → Bool) (rem epoch : Nat)
        (ps : List ParamState) (ms : List ℚ) (o d : String),
      (trainLoop eta mu grads loss unstable stopHook epoch rem ps
        ms).state ≠ .failed (.configuration o d)) := by
  refine ⟨?_, ?_,
    fun eta mu grads loss unstable stopHook rem epoch ps ms o d =>
      trainLoop_never_configuration_failed eta mu grads loss unstable
        stopHook rem epoch ps ms o d⟩
  · unfold mkConfig
    repeat' split
    all_goals
      simp_all [constructionSucceeded, rawInDomain,
        checkErrorTag_eq_ok_iff, checkErrorTag_eq_error_iff,
        checkStep_eq_ok_iff, checkStep_eq_error_iff,
        checkMomentum_eq_ok_iff, checkMomentum_eq_error_iff,
        checkBool_eq_ok_iff, checkBool_eq_error_iff,
        checkEpochs_eq_ok_iff, checkEpochs_eq_error_iff]
  · intro e he
    unfold mkConfig at he
    repeat' split at he
    all_goals (try injection he)
    all_goals subst_vars
    all_goals
      first
      | (obtain ⟨h1, h2⟩ :=
          (checkErrorTag_eq_error_iff tags r.error _).mp (by assumption)
         subst h1
         exact ⟨h2, rfl⟩)
      | (obtain ⟨h1, h2⟩ :=
          (checkStep_eq_error_iff r.step _).mp (by assumption)
         subst h1
         exact ⟨h2, rfl⟩)
      | (obtain ⟨h1, h2⟩ :=
          (checkMomentum_eq_error_iff r.momentum _).mp (by assumption)
         subst h1
         exact ⟨h2, rfl⟩)
      | (obtain ⟨h1, h2⟩ :=
          (checkBool_eq_error_iff "nesterov" r.nesterov _).mp
            (by assumption)
         subst h1
         exact ⟨h2, rfl⟩)
      | (obtain ⟨h1, h2⟩ :=
          (checkBool_eq_error_iff "shuffle_data" r.shuffle_data _).mp
            (by assumption)
         subst h1
         exact ⟨h2, rfl⟩)
      | (obtain ⟨h1, h2⟩ :=
          (checkBool_eq_error_iff "verbose" r.verbose _).mp
            (by assumption)
         subst h1
         exact ⟨h2, rfl⟩)
      | (obtain ⟨h1, h2⟩ :=
          (checkEpochs_eq_error_iff r.epochs _).mp (by assumption)
         subst h1
         exact ⟨h2, rfl⟩)

theorem configuration_errors_fail_fast_witness :
    constructionSucceeded
      (mkConfig ["categorical_crossentropy"]
        ⟨.s "categorical_crossentropy", .q 1, .q 0, .b true, .b true,
          .b false, .i 20⟩) = true :=
  (configuration_errors_fail_fast ["categorical_crossentropy"]
    ⟨.s "categorical_crossentropy", .q 1, .q 0, .b true, .b true,
      .b false, .i 20⟩).1.mpr
    ⟨⟨"categorical_crossentropy", rfl, by decide⟩,
      ⟨1, rfl, by norm_num⟩, ⟨0, rfl, by norm_num⟩,
      ⟨true, rfl⟩, ⟨true, rfl⟩, ⟨false, rfl⟩, ⟨20, rfl, by norm_num⟩⟩

theorem lossTrace_length (eta mu : ℚ) (grads : Nat → List ℚ)
    (loss : List ParamState → ℚ) :
    ∀ (c e : Nat) (ps : List ParamState),
      (lossTrace eta mu grads loss e c ps).length = c := by
  intro c
  induction c with
  | zero => intro e ps; rfl
  | succ kk ih => intro e ps; simp [lossTrace, ih]

/-- When the per-epoch hook signals at epoch `k` and `k` lies within the
remaining epochs, the loop runs epochs `e … k`, stops at the `k`-epoch
boundary with the Metrics of all those epochs appended and their updates
applied. -/
theorem trainLoop_stops_at_hook_epoch
    (eta mu : ℚ) (grads : Nat → List ℚ) (loss : List ParamState → ℚ)
    (k : Nat) :
    ∀ (m e : Nat) (ps : List ParamState) (ms : List ℚ),
      e ≤ k → k < e + m →
      trainLoop eta mu grads loss (fun _ => false) (fun x => x == k)
          e m ps ms =
        ⟨ms ++ lossTrace eta mu grads loss e (k + 1 - e) ps,
          applyEpochs eta mu grads e (k + 1 - e) ps,
          .stoppedEarly⟩ := by
  intro m
  induction m with
  | zero =>
    intro e ps ms h1 h2
    omega
  | succ mm ih =>
    intro e ps ms h1 h2
    by_cases hek : e = k
    · subst hek
      have h1e : e + 1 - e = 1 := by omega
      simp [trainLoop, h1e, lossTrace, applyEpochs]
    · have hlt : e < k := Nat.lt_of_le_of_ne h1 hek
      have hb : (e == k) = false := by simp [hek]
      have hrec := ih (e + 1) (optimizerStepG eta mu (grads e) ps)
        (ms ++ [loss (optimizerStepG eta mu (grads e) ps)])
        (by omega) (by omega)
      have hs : k + 1 - e = (k + 1 - (e + 1)) + 1 := by omega
      rw [hs]
      simp [trainLoop, hb, hrec, lossTrace, applyEpochs]

/-- Claim C7: a stop-training signal raised by the per-epoch hook at
epoch `k` of an `n`-epoch run (`k < n`) is caught at the epoch boundary:
the loop terminates in state `StoppedEarly` without re-raising, the
Metrics log has exactly `k` records, and the parameters retain exactly
the already-applied updates of the `k` completed epochs. -/
theorem stop_signal_terminates_with_k_metrics
    (eta mu : ℚ) (grads : Nat → List ℚ) (loss : List ParamState → ℚ)
    (k n : Nat) (ps : List ParamState) (hk : 1 ≤ k) (hkn : k < n) :
    (train eta mu grads loss (fun _ => false) (fun e => e == k) n
        ps).state = .stoppedEarly ∧
    (train eta mu grads loss (fun _ => false) (fun e => e == k) n
        ps).metrics.length = k ∧
    (train eta mu grads loss (fun _ => false) (fun e => e == k) n
        ps).params = applyEpochs eta mu grads 1 k ps := by
  have h := trainLoop_stops_at_hook_epoch eta mu grads loss k n 1 ps []
    hk (by omega)
  have hk1 : k + 1 - 1 = k := by omega
  unfold train
  rw [h, hk1]
  simp [lossTrace_length]

theorem stop_signal_terminates_with_k_metrics_witness :
    1 ≤ 3 ∧ 3 < 20 ∧
    ((train 1 0 (fun _ => [1]) (fun _ => 0) (fun _ => false)
        (fun e => e == 3) 20 [⟨0, 0⟩]).state = .stoppedEarly ∧
      (train 1 0 (fun _ => [1]) (fun _ => 0) (fun _ => false)
        (fun e => e == 3) 20 [⟨0, 0⟩]).metrics.length = 3 ∧
      (train 1 0 (fun _ => [1]) (fun _ => 0) (fun _ => false)
        (fun e => e == 3) 20 [⟨0, 0⟩]).params =
        applyEpochs 1 0 (fun _ => [1]) 1 3 [⟨0, 0⟩]) :=
  ⟨by norm_num, by norm_num,
    stop_signal_terminates_with_k_metrics 1 0 (fun _ => [1]) (fun _ => 0)
      3 20 [⟨0, 0⟩] (by norm_num) (by norm_num)⟩

/-- When the shape walk reports no mismatch, every declared input width
along the chain equals the previous width (the walk start for the first
layer, the previous layer's output width otherwise). -/
theorem firstMismatchFrom_none_sound (ls : List LayerSpec) :
    ∀ (prev : Nat), firstMismatchFrom prev ls = none →
      ∀ (j : Nat) (b : LayerSpec) (w : Nat),
        ls[j]? = some b → b.inWidth = some w →
        ((j = 0 → w = prev) ∧
          ∀ (kk : Nat) (a : LayerSpec), j = kk + 1 → ls[kk]? = some a →
            w = a.outWidth) := by
  induction ls with
  | nil =>
    intro prev _ j b w hj _
    simp at hj
  | cons l ls ih =>
    intro prev hnone j b w hj hw
    have hstep : firstMismatchFrom l.outWidth ls = none ∧
        (∀ w0, l.inWidth = some w0 → w0 = prev) := by
      cases hli : l.inWidth with
      | some w0 =>
        simp only [firstMismatchFrom, hli] at hnone
        split_ifs at hnone with hne
        refine ⟨hnone, fun w1 h => ?_⟩
        injection h with h2
        subst h2
        exact not_not.mp hne
      | none =>
        simp only [firstMismatchFrom, hli] at hnone
        exact ⟨hnone, fun w1 h => by cases h⟩
    obtain ⟨hrest, hl⟩ := hstep
    cases j with
    | zero =>
      rw [List.getElem?_cons_zero] at hj
      injection hj with hbl
      subst hbl
      refine ⟨fun _ => hl w hw, ?_⟩
      intro kk a hk0 _
      omega
    | succ jj =>
      rw [List.getElem?_cons_succ] at hj
      have IH := ih l.outWidth hrest jj b w hj hw
      refine ⟨fun h0 => by omega, ?_⟩
      intro kk a hsk hak
      have hjk : jj = kk := by omega
      subst hjk
      cases jj with
      | zero =>
        rw [List.getElem?_cons_zero] at hak
        injection hak with hal
        subst hal
        exact IH.1 rfl
      | succ k2 =>
        rw [List.getElem?_cons_succ] at hak
        exact IH.2 k2 a rfl hak

/-- A reported mismatch comes from an actual adjacent pair of the walk:
the error carries the declared input width of some layer and the width
it was checked against. -/
theorem firstMismatchFrom_some_sound (ls : List LayerSpec) :
    ∀ (prev : Nat) (e : GraphConstructionError),
      firstMismatchFrom prev ls = some e →
      ∃ (j : Nat) (b : LayerSpec), ls[j]? = some b ∧
        b.inWidth = some e.actual ∧ e.actual ≠ e.expected ∧
        ((j = 0 ∧ e.expected = prev) ∨
          ∃ (kk : Nat) (a : LayerSpec), j = kk + 1 ∧ ls[kk]? = some a ∧
            e.expected = a.outWidth) := by
  induction ls with
  | nil =>
    intro prev e h
    simp [firstMismatchFrom] at h
  | cons l ls ih =>
    intro prev e h
    cases hli : l.inWidth with
    | some w0 =>
      simp only [firstMismatchFrom, hli] at h
      split_ifs at h with hne
      · injection h with he
        subst he
        exact ⟨0, l, by simp, by simp [hli], hne, Or.inl ⟨rfl, rfl⟩⟩
      · obtain ⟨j, b, hj, hw, hne2, hd⟩ := ih l.outWidth e h
        refine ⟨j + 1, b, by simpa using hj, hw, hne2, ?_⟩
        rcases hd with ⟨hj0, hexp⟩ | ⟨kk, a, hjk, hak, hexp⟩
        · exact Or.inr ⟨0, l, by omega, by simp, hexp⟩
        · exact Or.inr ⟨kk + 1, a, by omega, by simpa using hak, hexp⟩
    | none =>
      simp only [firstMismatchFrom, hli] at h
      obtain ⟨j, b, hj, hw, hne2, hd⟩ := ih l.outWidth e h
      refine ⟨j + 1, b, by simpa using hj, hw, hne2, ?_⟩
      rcases hd with ⟨hj0, hexp⟩ | ⟨kk, a, hjk, hak, hexp⟩
      · exact Or.inr ⟨0, l, by omega, by simp, hexp⟩
      · exact Or.inr ⟨kk + 1, a, by omega, by simpa using hak, hexp⟩

/-- Claim C3: a chain with two consecutive layers of mismatched widths
fails to build, with a `GraphConstructionError` identifying both widths
of a mismatching adjacent pair, and no Parameter is allocated. -/
theorem buildGraph_mismatch_fails
    (chain : List LayerSpec) (i : Nat) (a b : LayerSpec) (w : Nat)
    (ha : chain[i]? = some a) (hb : chain[i + 1]? = some b)
    (hw : b.inWidth = some w) (hne : w ≠ a.outWidth) :
    ∃ e : GraphConstructionError,
      buildGraph chain = .error e ∧
      (∃ (j : Nat) (a2 b2 : LayerSpec),
        chain[j]? = some a2 ∧ chain[j + 1]? = some b2 ∧
        b2.inWidth = some e.actual ∧ e.expected = a2.outWidth ∧
        e.actual ≠ e.expected) ∧
      allocatedParams (buildGraph chain) = [] := by
  cases chain with
  | nil => simp at ha
  | cons c0 cs =>
    cases hfm : firstMismatchFrom c0.outWidth cs with
    | none =>
      exfalso
      have hcs : cs[i]? = some b := by simpa using hb
      have H := firstMismatchFrom_none_sound cs c0.outWidth hfm i b w
        hcs hw
      cases i with
      | zero =>
        have hac : c0 = a := by simpa using ha
        exact hne (hac ▸ H.1 rfl)
      | succ jj =>
        have hcsa : cs[jj]? = some a := by simpa using ha
        exact hne (H.2 jj a rfl hcsa)
    | some e =>
      have hbg : buildGraph (c0 :: cs) = .error e := by
        simp [buildGraph, hfm]
      refine ⟨e, hbg, ?_, by simp [allocatedParams, hbg]⟩
      obtain ⟨j, b2, hj, hw2, hne2, hd⟩ :=
        firstMismatchFrom_some_sound cs c0.outWidth e hfm
      rcases hd with ⟨hj0, hexp⟩ | ⟨kk, a2, hjk, hak, hexp⟩
      · subst hj0
        exact ⟨0, c0, b2, by simp, by simpa using hj, hw2, hexp, hne2⟩
      · subst hjk
        exact ⟨kk + 1, a2, b2, by simpa using hak, by simpa using hj,
          hw2, hexp, hne2⟩

theorem buildGraph_mismatch_fails_witness :
    ∃ e : GraphConstructionError,
      buildGraph [⟨"input", none, 2, false⟩, ⟨"dense", some 3, 5, true⟩] =
        .error e ∧
      (∃ (j : Nat) (a2 b2 : LayerSpec),
        [(⟨"input", none, 2, false⟩ : LayerSpec),
            ⟨"dense", some 3, 5, true⟩][j]? = some a2 ∧
        [(⟨"input", none, 2, false⟩ : LayerSpec),
            ⟨"dense", some 3, 5, true⟩][j + 1]? = some b2 ∧
        b2.inWidth = some e.actual ∧ e.expected = a2.outWidth ∧
        e.actual ≠ e.expected) ∧
      allocatedParams
        (buildGraph [⟨"input", none, 2, false⟩,
          ⟨"dense", some 3, 5, true⟩]) = [] :=
  buildGraph_mismatch_fails
    [⟨"input", none, 2, false⟩, ⟨"dense", some 3, 5, true⟩] 0
    ⟨"input", none, 2, false⟩ ⟨"dense", some 3, 5, true⟩ 3
    rfl rfl rfl (by decide)

/-- Claim C8 counterexample: on a `TerminalLogger` instance whose
`enable` flag is `False`, `message` with the valid color `green` raises
no `ValueError` yet writes nothing, while the claim demands that every
instance write the formatted template line. -/
theorem message_valid_color_counterexample :
    TerminalLogger.message (fun _ t => t) (TerminalLogger.init false)
        "info" "hello" "green" = (TerminalLogger.init false, none) ∧
    (TerminalLogger.init false).out = "" ∧
    ("" : String) ≠ "[INFO] hello" ++ "\n" := by
  refine ⟨?_, rfl, by decide⟩
  simp [TerminalLogger.message, TerminalLogger.write, TerminalLogger.init,
    TerminalLogger.colorNames]

/-- Rendering the default template `"[{tag}] {text}"` substitutes the
two fields in place. -/
theorem formatTemplate_default (tag text : String) :
    TerminalLogger.formatTemplate "[{tag}] {text}" tag text =
      "[" ++ tag ++ "] " ++ text := by
  apply String.ext
  simp [TerminalLogger.formatTemplate, TerminalLogger.substFields]

/-- Claim C8 (amended): `TerminalLogger.message` raises `ValueError` if
and only if the color is not one of gray, green, red and white, and when
it raises nothing is written to stdout; on an instance holding the
default template `"[{tag}] {text}"`, a valid color writes exactly that
template with the colorized upper-cased tag substituted, followed by a
newline, when the logger is enabled, and writes nothing when the logger
is disabled. -/
theorem message_raises_iff_invalid_color
    (czr : String → String → String) (st : LoggerState)
    (tag text color : String)
    (htpl : st.template = "[{tag}] {text}") :
    ((TerminalLogger.message czr st tag text color).2.isSome ↔
      color ∉ TerminalLogger.colorNames) ∧
    (color ∉ TerminalLogger.colorNames →
      TerminalLogger.message czr st tag text color =
        (st, some (TerminalLogger.invalidColorMsg color))) ∧
    (color ∈ TerminalLogger.colorNames → st.enable = true →
      TerminalLogger.message czr st tag text color =
        ({ st with out := st.out ++ "[" ++ czr color tag.toUpper ++ "] " ++
            text ++ "\n" }, none)) ∧
    (color ∈ TerminalLogger.colorNames → st.enable = false →
      TerminalLogger.message czr st tag text color = (st, none)) := by
  by_cases hc : color ∈ TerminalLogger.colorNames
  · refine ⟨by simp [TerminalLogger.message, hc],
      fun hn => absurd hc hn, fun _ hen => ?_, fun _ hdis => ?_⟩
    · simp [TerminalLogger.message, hc, TerminalLogger.write, hen, htpl,
        formatTemplate_default, String.append_assoc]
    · simp [TerminalLogger.message, hc, TerminalLogger.write, hdis]
  · exact ⟨by simp [TerminalLogger.message, hc],
      fun _ => by simp [TerminalLogger.message, hc],
      fun h => absurd h hc, fun h => absurd h hc⟩

theorem message_raises_iff_invalid_color_witness :
    TerminalLogger.message (fun _ t => t) (TerminalLogger.init true)
        "info" "hello" "green" =
      ({ TerminalLogger.init true with
          out := (TerminalLogger.init true).out ++ "[" ++
            (fun (_ t : String) => t) "green" (String.toUpper "info") ++
            "] " ++ "hello" ++ "\n" }, none) :=
  (message_raises_iff_invalid_color (fun _ t => t)
      (TerminalLogger.init true) "info" "hello" "green" rfl).2.2.1
    (by decide) rfl

/-- Claim C9: on a `TerminalLogger` instance whose `enable` attribute is
`False`, every output method (`write`, `newline`, `message` with a valid
color, `title`, `error`, `warning`, `table`) writes nothing to stdout
and leaves the logger state (`enable`, `template`, `stdout`) unchanged. -/
theorem disabled_logger_is_inert
    (czr : String → String → String) (bold underline : String → String)
    (render : List (List String) → List String → List Nat → String)
    (st : LoggerState) (t tag text color : String)
    (data : List (List String)) (headers : List String)
    (hdis : st.enable = false) (hcolor : color ∈ TerminalLogger.colorNames) :
    TerminalLogger.write st t = st ∧
    TerminalLogger.newline st = st ∧
    TerminalLogger.message czr st tag text color = (st, none) ∧
    TerminalLogger.title bold underline st t = st ∧
    TerminalLogger.error czr st t = (st, none) ∧
    TerminalLogger.warning czr st t = (st, none) ∧
    TerminalLogger.table render st data headers = st := by
  have hred : "red" ∈ TerminalLogger.colorNames := by decide
  refine ⟨?_, ?_, ?_, ?_, ?_, ?_, ?_⟩ <;>
    simp [TerminalLogger.write, TerminalLogger.newline,
      TerminalLogger.message, TerminalLogger.title, TerminalLogger.error,
      TerminalLogger.warning, TerminalLogger.table, hdis, hcolor, hred]

theorem disabled_logger_is_inert_witness :
    (TerminalLogger.init false).enable = false ∧
    "green" ∈ TerminalLogger.colorNames ∧
    (TerminalLogger.write (TerminalLogger.init false) "x" =
        TerminalLogger.init false ∧
      TerminalLogger.newline (TerminalLogger.init false) =
        TerminalLogger.init false ∧
      TerminalLogger.message (fun _ t => t) (TerminalLogger.init false)
          "tag" "txt" "green" = (TerminalLogger.init false, none) ∧
      TerminalLogger.title (fun t => t) (fun t => t)
          (TerminalLogger.init false) "x" = TerminalLogger.init false ∧
      TerminalLogger.error (fun _ t => t) (TerminalLogger.init false) "x" =
        (TerminalLogger.init false, none) ∧
      TerminalLogger.warning (fun _ t => t) (TerminalLogger.init false) "x" =
        (TerminalLogger.init false, none) ∧
      TerminalLogger.table (fun _ _ _ => "x") (TerminalLogger.init false)
          [["a"]] ["h"] = TerminalLogger.init false) :=
  ⟨rfl, by decide,
    disabled_logger_is_inert (fun _ t => t) (fun t => t) (fun t => t)
      (fun _ _ _ => "x") (TerminalLogger.init false) "x" "tag" "txt"
      "green" [["a"]] ["h"] rfl (by decide)⟩

/-- Claim C4: on a valid compiled graph, two calls to `predict` with
identical input and unchanged Parameter values return bit-identical
outputs, and `predict` mutates no Parameter or optimizer state: the
session state after the call is exactly the state before, the second
call on the resulting state reproduces the first output, and the output
depends only on the Parameters (velocities are irrelevant). -/
theorem predict_pure_and_deterministic
    (s : SessionState) (x : List ℚ) (d : Nat)
    (hvalid : wellFormedFrom d s.layers = true) :
    (predict s x).2 = s ∧
    (predict ((predict s x).2) x).1 = (predict s x).1 ∧
    ∀ s2 : SessionState, s2.layers = s.layers →
      (predict s2 x).1 = (predict s x).1 := by
  refine ⟨rfl, rfl, ?_⟩
  intro s2 h
  simp [predict, h]

theorem predict_pure_and_deterministic_witness :
    wellFormedFrom 2
      [DenseLayer.mk [[1, 0], [0, 1]] [0, 0] .relu] = true ∧
    ((predict ⟨[DenseLayer.mk [[1, 0], [0, 1]] [0, 0] .relu], [0]⟩
        [3, 4]).2 = ⟨[DenseLayer.mk [[1, 0], [0, 1]] [0, 0] .relu], [0]⟩ ∧
      (predict ((predict ⟨[DenseLayer.mk [[1, 0], [0, 1]] [0, 0] .relu],
          [0]⟩ [3, 4]).2) [3, 4]).1 =
        (predict ⟨[DenseLayer.mk [[1, 0], [0, 1]] [0, 0] .relu], [0]⟩
          [3, 4]).1 ∧
      ∀ s2 : SessionState,
        s2.layers = (⟨[DenseLayer.mk [[1, 0], [0, 1]] [0, 0] .relu],
            [0]⟩ : SessionState).layers →
        (predict s2 [3, 4]).1 =
          (predict ⟨[DenseLayer.mk [[1, 0], [0, 1]] [0, 0] .relu], [0]⟩
            [3, 4]).1) :=
  ⟨by decide,
    predict_pure_and_deterministic
      ⟨[DenseLayer.mk [[1, 0], [0, 1]] [0, 0] .relu], [0]⟩ [3, 4] 2
      (by decide)⟩

/-- Claim C10: for every `Verbose` instance the invariant
`logs.enable == verbose` holds after construction and is preserved by
every assignment to the `verbose` attribute. -/
theorem verbose_synchronizes_logs_enable :
    (∀ o : Option Bool, (mkVerbose o).logs.enable = (mkVerbose o).verbose) ∧
    ∀ (s : VerboseState) (v : Bool),
      (setVerbose s v).logs.enable = (setVerbose s v).verbose := by
  constructor
  · intro o
    cases o <;> rfl
  · intro s v
    rfl

end Neupy
